import Mathlib

set_option maxRecDepth 100000

/-
  Shallow embedding of the telemetry service of the smart-home repository
  (src/telemetry-service/main.py together with src/shared/models.py).

  Modelling conventions:
  - timestamps are integers (seconds); datetime.now() becomes an explicit
    argument called now; the ISO-string comparisons performed by SQLite are
    order-isomorphic to integer comparison, so timestamp >= ? is integer <=;
  - Python floats are modelled by the rationals;
  - an HTTPException raised by an endpoint is the error branch of Except;
  - the sqlite telemetry and user_devices tables are lists of rows; the
    AUTOINCREMENT id column is a counter carried in the state;
  - row tuples are replaced by records whose field names follow the column
    names the code accesses through its index comments (row[3] energy_usage,
    latest[7] temperature, latest[9] status, latest[2] timestamp).
-/

/-- One row of the telemetry table. -/
structure Reading where
  id : Nat
  user_id : String
  device_id : String
  timestamp : Int
  energy_usage : ℚ
  voltage : Option ℚ
  current : Option ℚ
  power_factor : Option ℚ
  temperature : Option ℚ
  humidity : Option ℚ
  status : String
deriving DecidableEq

/-- One row of the user_devices table (columns the endpoints use). -/
structure UserDevice where
  user_id : String
  device_id : String
  device_name : String
  device_type : String
  location : String
  is_active : Bool
deriving DecidableEq

/-- The database state of the telemetry service. -/
structure TelemetryDB where
  telemetry : List Reading
  user_devices : List UserDevice
  next_telemetry_id : Nat
deriving DecidableEq

/-- models.TelemetryCreate: the ingestion request body. It has no
timestamp field. -/
structure TelemetryCreate where
  device_id : String
  energy_usage : ℚ
  voltage : Option ℚ
  current : Option ℚ
  power_factor : Option ℚ
  temperature : Option ℚ
  humidity : Option ℚ
  status : String
deriving DecidableEq

/-- models.TelemetryResponse. -/
structure TelemetryResponse where
  id : Nat
  device_id : String
  timestamp : Int
  energy_usage : ℚ
  voltage : Option ℚ
  current : Option ℚ
  power_factor : Option ℚ
  temperature : Option ℚ
  humidity : Option ℚ
  status : String
deriving DecidableEq

/-- models.EnergyAnalytics: the analytics response record. Its only
collection-valued field is data_points; it has no sample-count field. -/
structure EnergyAnalytics where
  device_id : String
  period : String
  total_energy : ℚ
  average_energy : ℚ
  peak_energy : ℚ
  cost_estimate : ℚ
  carbon_footprint : ℚ
  data_points : List TelemetryResponse
deriving DecidableEq

/-- models.DeviceHealth: the health response record. -/
structure DeviceHealth where
  device_id : String
  status : String
  last_seen : Int
  uptime_percentage : ℚ
  error_count : Nat
  maintenance_due : Bool
  recommendations : List String
deriving DecidableEq

/-- fastapi.HTTPException, reduced to the status code and detail carried. -/
structure HTTPError where
  status_code : Nat
  detail : String
deriving DecidableEq

/-- Conversion of a telemetry row into the response model, with the index
mapping written in the endpoint bodies. -/
def toResponse (r : Reading) : TelemetryResponse :=
  { id := r.id
    device_id := r.device_id
    timestamp := r.timestamp
    energy_usage := r.energy_usage
    voltage := r.voltage
    current := r.current
    power_factor := r.power_factor
    temperature := r.temperature
    humidity := r.humidity
    status := r.status }

/-- calculate_energy_analytics: aggregates over the rows handed to it.
Returns none on the empty list (the Python function returns None), and
always sets period to a placeholder later overwritten by the endpoint and
data_points to the empty list, exactly as the source does. -/
def calculate_energy_analytics (telemetry_data : List Reading) : Option EnergyAnalytics :=
  match telemetry_data with
  | [] => none
  | first :: rest =>
    let energy_values := (first :: rest).map (fun r => r.energy_usage)
    let total_energy := energy_values.foldl (· + ·) 0
    let average_energy := total_energy / (energy_values.length : ℚ)
    let peak_energy := (rest.map (fun r => r.energy_usage)).foldl max first.energy_usage
    let cost_estimate := total_energy * (12 / 100 : ℚ)
    let carbon_footprint := total_energy * (92 / 100 : ℚ)
    some
      { device_id := first.device_id
        period := "custom"
        total_energy := total_energy
        average_energy := average_energy
        peak_energy := peak_energy
        cost_estimate := cost_estimate
        carbon_footprint := carbon_footprint
        data_points := [] }

/-- The row set of the SQL query
SELECT * FROM telemetry WHERE device_id = ? AND timestamp >= ?,
shared by the analytics endpoint (window scan) and the health endpoint
(recent-count scan). Note the absence of any user_id condition, as in the
source. -/
def windowRows (db : TelemetryDB) (device_id : String) (start_time : Int) : List Reading :=
  db.telemetry.filter (fun r => r.device_id == device_id && decide (start_time ≤ r.timestamp))

/-- Window resolution of get_device_analytics: the if/elif chain mapping a
period string to the start of the window, none for anything else. -/
def periodStart (now : Int) (period : String) : Option Int :=
  if period = "daily" then some (now - 86400)
  else if period = "weekly" then some (now - 604800)
  else if period = "monthly" then some (now - 2592000)
  else if period = "yearly" then some (now - 31536000)
  else none

/-- GET /telemetry/deviceId/analytics. The current_user argument comes from
the verified token but, as in the source, is not used in any query. -/
def get_device_analytics (db : TelemetryDB) (now : Int) (current_user : String)
    (device_id : String) (period : String) : Except HTTPError EnergyAnalytics :=
  match periodStart now period with
  | none => Except.error ⟨400, "Invalid period. Use: daily, weekly, monthly, yearly"⟩
  | some start_time =>
    let telemetry_data := windowRows db device_id start_time
    match calculate_energy_analytics telemetry_data with
    | none =>
      Except.error ⟨404, "No telemetry data found for device " ++ device_id ++
        " in the specified period"⟩
    | some analytics => Except.ok { analytics with period := period }

/-- The row of ORDER BY timestamp DESC LIMIT 1: a row carrying the maximal
timestamp of the list (the first such row in list order). -/
def latestReading (rows : List Reading) : Option Reading :=
  match rows with
  | [] => none
  | r :: rs => some (rs.foldl (fun acc x => if acc.timestamp < x.timestamp then x else acc) r)

/-- Python truthiness test followed by the comparison in the source line
if latest[7] and latest[7] > 80. -/
def temperatureHigh : Option ℚ → Bool
  | none => false
  | some t => decide (t ≠ 0) && decide (80 < t)

def connectivityAdvisory : String := "Device may be experiencing connectivity issues"

def maintenanceAdvisory : String := "Device has reported errors - check device status"

def ventilationAdvisory : String := "Device temperature is high - check ventilation"

/-- The recommendation list built by get_device_health: three sequential,
independent appends. -/
def build_recommendations (uptime_percentage : ℚ) (error_count : Nat)
    (temperature : Option ℚ) : List String :=
  (if uptime_percentage < 90 then [connectivityAdvisory] else []) ++
  (if 0 < error_count then [maintenanceAdvisory] else []) ++
  (if temperatureHigh temperature then [ventilationAdvisory] else [])

/-- GET /telemetry/deviceId/health. As in the source, every query filters by
device_id only; current_user is never used past authentication. -/
def get_device_health (db : TelemetryDB) (now : Int) (current_user : String)
    (device_id : String) : Except HTTPError DeviceHealth :=
  let device_rows := db.telemetry.filter (fun r => r.device_id == device_id)
  match latestReading device_rows with
  | none => Except.error ⟨404, "No telemetry data found for device " ++ device_id⟩
  | some latest =>
    let yesterday := now - 86400
    let recent_count := (windowRows db device_id yesterday).length
    let error_count :=
      (db.telemetry.filter (fun r => r.device_id == device_id && !(r.status == "active"))).length
    let expected_points : Nat := 24
    let uptime_percentage : ℚ :=
      if 0 < expected_points then ((recent_count : ℚ) / (expected_points : ℚ)) * 100 else 0
    Except.ok
      { device_id := device_id
        status := latest.status
        last_seen := latest.timestamp
        uptime_percentage := uptime_percentage
        error_count := error_count
        maintenance_due := decide (5 < error_count) || decide (uptime_percentage < 80)
        recommendations := build_recommendations uptime_percentage error_count latest.temperature }

/-- POST /telemetry. The INSERT names no timestamp column, so the stored
timestamp is the DEFAULT CURRENT_TIMESTAMP of the store, here the now
argument; the user_id column is taken from the verified token. -/
def create_telemetry (db : TelemetryDB) (now : Int) (current_user : String)
    (telemetry_data : TelemetryCreate) : Except HTTPError (TelemetryDB × TelemetryResponse) :=
  let telemetry_id := db.next_telemetry_id
  let row : Reading :=
    { id := telemetry_id
      user_id := current_user
      device_id := telemetry_data.device_id
      timestamp := now
      energy_usage := telemetry_data.energy_usage
      voltage := telemetry_data.voltage
      current := telemetry_data.current
      power_factor := telemetry_data.power_factor
      temperature := telemetry_data.temperature
      humidity := telemetry_data.humidity
      status := telemetry_data.status }
  Except.ok
    ({ db with telemetry := db.telemetry ++ [row], next_telemetry_id := telemetry_id + 1 },
      toResponse row)

/-- Insertion into a timestamp-descending list, used to model
ORDER BY timestamp DESC. -/
def insertTimestampDesc (r : Reading) : List Reading → List Reading
  | [] => [r]
  | x :: xs => if x.timestamp ≤ r.timestamp then r :: x :: xs else x :: insertTimestampDesc r xs

/-- ORDER BY timestamp DESC over a row list. -/
def orderByTimestampDesc (rows : List Reading) : List Reading :=
  rows.foldr insertTimestampDesc []

/-- GET /telemetry: the only read endpoint whose SQL carries the
WHERE user_id = ? conjunct; optional device and time filters, then
ORDER BY timestamp DESC LIMIT limit. -/
def get_telemetry (db : TelemetryDB) (current_user : String) (device_id : Option String)
    (start_time : Option Int) (end_time : Option Int) (limit : Nat) : List TelemetryResponse :=
  let rows := db.telemetry.filter (fun r =>
    r.user_id == current_user
    && (match device_id with | none => true | some d => r.device_id == d)
    && (match start_time with | none => true | some s => decide (s ≤ r.timestamp))
    && (match end_time with | none => true | some e => decide (r.timestamp ≤ e)))
  ((orderByTimestampDesc rows).take limit).map toResponse

/-- DELETE /telemetry/telemetryId. The source runs
DELETE FROM telemetry WHERE id = ? with no user_id condition, then raises
404 when cursor.rowcount is zero; only a positive rowcount commits. -/
def delete_telemetry (db : TelemetryDB) (telemetry_id : Nat) :
    Except HTTPError (TelemetryDB × String) :=
  let remaining := db.telemetry.filter (fun r => !(r.id == telemetry_id))
  if remaining.length = db.telemetry.length then
    Except.error ⟨404, "Telemetry record " ++ toString telemetry_id ++ " not found"⟩
  else
    Except.ok ({ db with telemetry := remaining },
      "Telemetry record " ++ toString telemetry_id ++ " deleted successfully")

/-- The request body of POST /devices: a dict read through .get with
defaults for everything except device_id. -/
structure DeviceCreatePayload where
  device_id : String
  device_name : Option String
  device_type : Option String
  location : Option String
deriving DecidableEq

/-- POST /devices. The UNIQUE(user_id, device_id) constraint turns a
duplicate pair for the same user into an IntegrityError, which the handler
maps to status 400. -/
def create_user_device (db : TelemetryDB) (current_user : String)
    (device_data : DeviceCreatePayload) : Except HTTPError (TelemetryDB × String) :=
  if db.user_devices.any (fun d => d.user_id == current_user && d.device_id == device_data.device_id) then
    Except.error ⟨400, "Device ID already exists for this user"⟩
  else
    Except.ok
      ({ db with user_devices := db.user_devices ++
          [{ user_id := current_user
             device_id := device_data.device_id
             device_name := device_data.device_name.getD ("Unknown Device")
             device_type := device_data.device_type.getD ("Smart Device")
             location := device_data.location.getD ("Unknown Location")
             is_active := true }] },
        "Device created successfully")

deriving instance DecidableEq for Except

/-- Projection of an endpoint result onto the HTTP status code of the raised
exception, none when the call succeeded. -/
def errorStatus {α : Type} : Except HTTPError α → Option Nat
  | Except.error e => some e.status_code
  | Except.ok _ => none

/-- Shorthand for building one telemetry row in concrete test databases. -/
def mkReading (i : Nat) (u device : String) (ts : Int) (e : ℚ) (temp : Option ℚ)
    (st : String) : Reading :=
  { id := i
    user_id := u
    device_id := device
    timestamp := ts
    energy_usage := e
    voltage := none
    current := none
    power_factor := none
    temperature := temp
    humidity := none
    status := st }

/-- n rows with status active, one per second from the base timestamp. -/
def mkActiveReadings (u device : String) (n : Nat) (base : Int) : List Reading :=
  (List.range n).map (fun i => mkReading (i + 1) u device (base + i) 1 none ("active"))

/-- A store holding one reading written under tenantB for device d. -/
def dbB : TelemetryDB :=
  { telemetry := [mkReading 1 ("tenantB") ("d") 999900 5 (some 20) ("active")]
    user_devices :=
      [{ user_id := "tenantB", device_id := "d", device_name := "N", device_type := "T",
         location := "L", is_active := true }]
    next_telemetry_id := 2 }

/-- A store holding one reading with id 1, used for the delete claims. -/
def db1 : TelemetryDB :=
  { telemetry := [mkReading 1 ("B") ("d") 999900 5 none ("active")]
    user_devices := []
    next_telemetry_id := 2 }

/-- Tenant T1, device D1, energy values 1, 2 and 3, all within the last hour
of the reference instant 1000000. -/
def db3 : TelemetryDB :=
  { telemetry :=
      [mkReading 1 ("T1") ("D1") 999700 1 none ("active"),
       mkReading 2 ("T1") ("D1") 999800 2 none ("active"),
       mkReading 3 ("T1") ("D1") 999900 3 none ("active")]
    user_devices := []
    next_telemetry_id := 4 }

/-- Five readings with zero energy usage inside the daily window. -/
def db5 : TelemetryDB :=
  { telemetry :=
      [mkReading 1 ("T") ("D") 999100 0 none ("active"),
       mkReading 2 ("T") ("D") 999200 0 none ("active"),
       mkReading 3 ("T") ("D") 999300 0 none ("active"),
       mkReading 4 ("T") ("D") 999400 0 none ("active"),
       mkReading 5 ("T") ("D") 999500 0 none ("active")]
    user_devices := []
    next_telemetry_id := 6 }

/-- Thirty readings for device D inside the trailing 24 hours of 1000000. -/
def db30 : TelemetryDB :=
  { telemetry := mkActiveReadings ("T") ("D") 30 999000
    user_devices := []
    next_telemetry_id := 31 }

/-- The last row of db30, the one of maximal timestamp. -/
def reading30 : Reading := mkReading 30 ("T") ("D") 999029 1 none ("active")

/-- The health report the service computes on db30 at instant 1000000. -/
def health30 : DeviceHealth :=
  { device_id := "D"
    status := "active"
    last_seen := 999029
    uptime_percentage := 125
    error_count := 0
    maintenance_due := false
    recommendations := [] }

/-- Twenty-three plain recent readings plus a latest reading at temperature
75: full uptime, no errors, temperature between the 70 of the spec and the
80 of the code. -/
def db24 : TelemetryDB :=
  { telemetry := mkActiveReadings ("T") ("D") 23 999000 ++
      [mkReading 24 ("T") ("D") 999100 1 (some 75) ("active")]
    user_devices := []
    next_telemetry_id := 25 }

/-- Device D2: six historic readings with non-active status, none of them in
the trailing 24 hours of 1000000. -/
def dbD2 : TelemetryDB :=
  { telemetry :=
      [mkReading 1 ("T") ("D2") 800000 1 none ("error"),
       mkReading 2 ("T") ("D2") 800001 1 none ("error"),
       mkReading 3 ("T") ("D2") 800002 1 none ("error"),
       mkReading 4 ("T") ("D2") 800003 1 none ("error"),
       mkReading 5 ("T") ("D2") 800004 1 none ("error"),
       mkReading 6 ("T") ("D2") 800005 1 none ("error")]
    user_devices := []
    next_telemetry_id := 7 }

/-- A registry holding device D1 for tenant A. -/
def dbDevA : TelemetryDB :=
  { telemetry := []
    user_devices :=
      [{ user_id := "A", device_id := "D1", device_name := "N", device_type := "T",
         location := "L", is_active := true }]
    next_telemetry_id := 1 }

/-- The registration payload naming device D1 and nothing else. -/
def payD1 : DeviceCreatePayload :=
  { device_id := "D1", device_name := none, device_type := none, location := none }

/-- An empty store. -/
def dbEmpty : TelemetryDB :=
  { telemetry := [], user_devices := [], next_telemetry_id := 1 }

/-- A reading at timestamp now - 25h for the window-cutoff claim, with
now = 1000000. -/
def reading25h : Reading := mkReading 7 ("T") ("D") 910000 1 none ("active")

/-- Folding addition from an accumulator equals the accumulator plus the
list sum; this is how Python sum relates to List.sum. -/
theorem foldl_add_eq_sum (l : List ℚ) (a : ℚ) : l.foldl (· + ·) a = a + l.sum := by
  induction l generalizing a with
  | nil => simp
  | cons x t ih => simp [ih, add_assoc]

/-- The seed of a left max fold is a lower bound of the result. -/
theorem le_foldl_max (l : List ℚ) (a : ℚ) : a ≤ l.foldl max a := by
  induction l generalizing a with
  | nil => simp
  | cons x t ih => exact le_trans (le_max_left a x) (ih (max a x))

/-- Every member of the list is bounded by the left max fold. -/
theorem mem_le_foldl_max (l : List ℚ) (a : ℚ) : ∀ x ∈ l, x ≤ l.foldl max a := by
  induction l generalizing a with
  | nil => simp
  | cons y t ih =>
    intro x hx
    rcases List.mem_cons.mp hx with h | h
    · subst h
      exact le_trans (le_max_right a x) (le_foldl_max t (max a x))
    · exact ih (max a y) x h

/-- The left max fold is either the seed or a member of the list. -/
theorem foldl_max_mem (l : List ℚ) (a : ℚ) : l.foldl max a = a ∨ l.foldl max a ∈ l := by
  induction l generalizing a with
  | nil => simp
  | cons x t ih =>
    rcases ih (max a x) with h | h
    · rcases le_total a x with hax | hxa
      · rw [max_eq_right hax] at h
        right
        simp only [List.foldl_cons, max_eq_right hax, h, List.mem_cons, true_or]
      · rw [max_eq_left hxa] at h
        left
        simp only [List.foldl_cons, max_eq_left hxa, h]
    · right
      exact List.mem_cons_of_mem x h

/-- Claim C6: the analytics window resolves as daily = now - 24h,
weekly = now - 7d, monthly = now - 30d, yearly = now - 365d, and any other
period value makes the endpoint fail with status 400 (InvalidArgument)
rather than silently defaulting to some period. -/
theorem period_resolution_and_invalid_period_rejection :
    (∀ now : Int,
      periodStart now ("daily") = some (now - 86400) ∧
      periodStart now ("weekly") = some (now - 604800) ∧
      periodStart now ("monthly") = some (now - 2592000) ∧
      periodStart now ("yearly") = some (now - 31536000)) ∧
    (∀ (db : TelemetryDB) (now : Int) (u d p : String),
      p ≠ "daily" → p ≠ "weekly" → p ≠ "monthly" → p ≠ "yearly" →
      get_device_analytics db now u d p =
        Except.error ⟨400, "Invalid period. Use: daily, weekly, monthly, yearly"⟩) := by
  constructor
  · intro now
    refine ⟨rfl, ?_, ?_, ?_⟩ <;> simp [periodStart]
  · intro db now u d p h1 h2 h3 h4
    have hp : periodStart now p = none := by
      unfold periodStart
      rw [if_neg h1, if_neg h2, if_neg h3, if_neg h4]
    unfold get_device_analytics
    rw [hp]

/-- Witness for C6 at the concrete unrecognized period value hourly. -/
theorem period_rejection_witness :
    get_device_analytics dbEmpty 1000000 ("T") ("D") ("hourly") =
      Except.error ⟨400, "Invalid period. Use: daily, weekly, monthly, yearly"⟩ :=
  period_resolution_and_invalid_period_rejection.2 dbEmpty 1000000 ("T") ("D") ("hourly")
    (by decide) (by decide) (by decide) (by decide)

/-- Claim C10: the ingestion request schema has no timestamp field, so the
stored reading and the returned response carry the timestamp assigned by the
store at insert time (now); any two payloads produce the same timestamp. -/
theorem ingestion_timestamp_server_assigned :
    (∀ (db : TelemetryDB) (now : Int) (u : String) (p : TelemetryCreate),
      create_telemetry db now u p =
        Except.ok
          ({ db with
              telemetry := db.telemetry ++
                [{ id := db.next_telemetry_id
                   user_id := u
                   device_id := p.device_id
                   timestamp := now
                   energy_usage := p.energy_usage
                   voltage := p.voltage
                   current := p.current
                   power_factor := p.power_factor
                   temperature := p.temperature
                   humidity := p.humidity
                   status := p.status }]
              next_telemetry_id := db.next_telemetry_id + 1 },
            { id := db.next_telemetry_id
              device_id := p.device_id
              timestamp := now
              energy_usage := p.energy_usage
              voltage := p.voltage
              current := p.current
              power_factor := p.power_factor
              temperature := p.temperature
              humidity := p.humidity
              status := p.status })) ∧
    (∀ (db : TelemetryDB) (now : Int) (u : String) (p1 p2 : TelemetryCreate),
      (create_telemetry db now u p1).toOption.map (fun x => x.2.timestamp) =
        (create_telemetry db now u p2).toOption.map (fun x => x.2.timestamp)) := by
  constructor
  · intro db now u p
    rfl
  · intro db now u p1 p2
    rfl

/-- Claim C7: a reading at now - 25h (timestamp now - 90000) lies outside
the daily cutoff now - 86400 shared by the analytics window scan and the
recent-count scan of the health endpoint, so it changes neither the daily
analytics nor the recent count, while the weekly window at now - 604800
contains it. -/
theorem window_cutoff_shared_25h :
    ∀ (db : TelemetryDB) (now : Int) (u d : String) (r : Reading),
      r.timestamp = now - 90000 → r.device_id = d →
      (r ∉ windowRows db d (now - 86400)) ∧
      (get_device_analytics { db with telemetry := db.telemetry ++ [r] } now u d ("daily") =
        get_device_analytics db now u d ("daily")) ∧
      ((windowRows { db with telemetry := db.telemetry ++ [r] } d (now - 86400)).length =
        (windowRows db d (now - 86400)).length) ∧
      (r ∈ windowRows { db with telemetry := db.telemetry ++ [r] } d (now - 604800)) := by
  intro db now u d r ht hdev
  have hnotle : ¬ (now - 86400 ≤ r.timestamp) := by
    rw [ht]
    omega
  have hpred : (r.device_id == d && decide (now - 86400 ≤ r.timestamp)) = false := by
    simp [hnotle]
  have happend :
      windowRows { db with telemetry := db.telemetry ++ [r] } d (now - 86400) =
        windowRows db d (now - 86400) := by
    unfold windowRows
    simp only [List.filter_append, List.filter_cons, List.filter_nil, hpred,
      Bool.false_eq_true, if_false, List.append_nil]
  refine ⟨?_, ?_, ?_, ?_⟩
  · intro hmem
    rw [windowRows, List.mem_filter] at hmem
    have h2 := hmem.2
    rw [hpred] at h2
    exact Bool.false_ne_true h2
  · have hd : periodStart now ("daily") = some (now - 86400) := rfl
    have key : ∀ db0 : TelemetryDB,
        get_device_analytics db0 now u d ("daily") =
          (match calculate_energy_analytics (windowRows db0 d (now - 86400)) with
            | none =>
              Except.error ⟨404, "No telemetry data found for device " ++ d ++
                " in the specified period"⟩
            | some analytics => Except.ok { analytics with period := "daily" }) := by
      intro db0
      unfold get_device_analytics
      rw [hd]
    rw [key, key, happend]
  · rw [happend]
  · rw [windowRows, List.mem_filter]
    constructor
    · simp
    · have hle : now - 604800 ≤ r.timestamp := by omega
      simp [hdev, hle]

/-- Witness for C7: the concrete reading at 910000 against the empty store
at instant 1000000. -/
theorem window_cutoff_shared_25h_witness :
    (reading25h ∉ windowRows dbEmpty ("D") (1000000 - 86400)) ∧
    (get_device_analytics { dbEmpty with telemetry := dbEmpty.telemetry ++ [reading25h] }
        1000000 ("T") ("D") ("daily") =
      get_device_analytics dbEmpty 1000000 ("T") ("D") ("daily")) ∧
    ((windowRows { dbEmpty with telemetry := dbEmpty.telemetry ++ [reading25h] }
        ("D") (1000000 - 86400)).length =
      (windowRows dbEmpty ("D") (1000000 - 86400)).length) ∧
    (reading25h ∈ windowRows { dbEmpty with telemetry := dbEmpty.telemetry ++ [reading25h] }
        ("D") (1000000 - 604800)) :=
  window_cutoff_shared_25h dbEmpty 1000000 ("T") ("D") reading25h (by decide) (by decide)

/-- Claim C1, settled against the code: the plain query endpoint filters by
the requesting principal (tenantA sees nothing for device d), yet the
analytics and health endpoints, invoked by tenantA for the same device,
succeed and return values computed from the reading written under tenantB:
total energy 5, last seen 999900 and an uptime derived from tenantB's one
recent reading. -/
theorem tenant_isolation_violation_at_analytics_and_health :
    get_telemetry dbB ("tenantA") (some ("d")) none none 100 = [] ∧
    (get_device_analytics dbB 1000000 ("tenantA") ("d") ("daily")).toOption.map
      (fun a => a.total_energy) = some 5 ∧
    (get_device_health dbB 1000000 ("tenantA") ("d")).toOption.map
      (fun h => (h.last_seen, h.uptime_percentage)) = some (999900, 25 / 6) := by
  refine ⟨by decide, ?_, ?_⟩
  · have hd : periodStart 1000000 ("daily") = some 913600 := by norm_num [periodStart]
    have hrows : windowRows dbB ("d") 913600 =
        [mkReading 1 ("tenantB") ("d") 999900 5 (some 20) ("active")] := by decide
    simp only [get_device_analytics, hd, hrows, calculate_energy_analytics]
    norm_num [mkReading]
    exact ⟨_, rfl, rfl⟩
  · have hL : latestReading (dbB.telemetry.filter (fun r => r.device_id == "d")) =
        some (mkReading 1 ("tenantB") ("d") 999900 5 (some 20) ("active")) := by decide
    have hW : (windowRows dbB ("d") (1000000 - 86400)).length = 1 := by decide
    have hE : (dbB.telemetry.filter
        (fun r => r.device_id == "d" && !(r.status == "active"))).length = 0 := by decide
    simp only [get_device_health, hL, hW, hE]
    norm_num [mkReading]
    exact ⟨_, rfl, rfl, rfl⟩

/-- Helper for the delete claims: when no row carries the requested id, the
endpoint raises 404 (and, the DELETE having matched nothing, the state is
unchanged). -/
theorem delete_when_no_match (db : TelemetryDB) (tid : Nat)
    (h : ∀ r ∈ db.telemetry, r.id ≠ tid) :
    delete_telemetry db tid =
      Except.error ⟨404, "Telemetry record " ++ toString tid ++ " not found"⟩ := by
  unfold delete_telemetry
  have hf : db.telemetry.filter (fun r => !(r.id == tid)) = db.telemetry := by
    rw [List.filter_eq_self]
    intro a ha
    simp [h a ha]
  rw [hf]
  simp

/-- Helper for the delete claims: when some row carries the id, the endpoint
removes every row with that id, whatever tenant wrote it. -/
theorem delete_when_match (db : TelemetryDB) (tid : Nat) (r : Reading)
    (hr : r ∈ db.telemetry) (hid : r.id = tid) :
    delete_telemetry db tid =
      Except.ok ({ db with telemetry := db.telemetry.filter (fun x => !(x.id == tid)) },
        "Telemetry record " ++ toString tid ++ " deleted successfully") := by
  have hlt : (db.telemetry.filter (fun x => !(x.id == tid))).length < db.telemetry.length := by
    rw [List.length_filter_lt_length_iff_exists]
    exact ⟨r, hr, by simp [hid]⟩
  unfold delete_telemetry
  rw [if_neg (by omega)]

/-- Claim C2, corrected: DELETE /telemetry removes every reading with the
given id regardless of the owning tenant, raises 404 when no such row
exists, and therefore fails on the second of two identical deletes. -/
theorem delete_telemetry_semantics :
    (∀ (db : TelemetryDB) (tid : Nat), (∀ r ∈ db.telemetry, r.id ≠ tid) →
      delete_telemetry db tid =
        Except.error ⟨404, "Telemetry record " ++ toString tid ++ " not found"⟩) ∧
    (∀ (db : TelemetryDB) (tid : Nat) (r : Reading), r ∈ db.telemetry → r.id = tid →
      delete_telemetry db tid =
        Except.ok ({ db with telemetry := db.telemetry.filter (fun x => !(x.id == tid)) },
          "Telemetry record " ++ toString tid ++ " deleted successfully")) ∧
    (∀ (db db2 : TelemetryDB) (tid : Nat) (msg : String),
      delete_telemetry db tid = Except.ok (db2, msg) →
      delete_telemetry db2 tid =
        Except.error ⟨404, "Telemetry record " ++ toString tid ++ " not found"⟩) := by
  refine ⟨delete_when_no_match, fun db tid r hr hid => delete_when_match db tid r hr hid, ?_⟩
  intro db db2 tid msg hok
  unfold delete_telemetry at hok
  by_cases hc :
      (db.telemetry.filter (fun r => !(r.id == tid))).length = db.telemetry.length
  · rw [if_pos hc] at hok
    exact absurd hok (by simp)
  · rw [if_neg hc] at hok
    simp only [Except.ok.injEq, Prod.mk.injEq] at hok
    obtain ⟨hdb, hmsg⟩ := hok
    apply delete_when_no_match
    intro x hx
    rw [← hdb] at hx
    have := (List.mem_filter.mp hx).2
    simpa using this

/-- Counterexample for C2 as stated: deleting a missing reading id is an
error 404, not a false-but-success result. -/
theorem delete_missing_id_returns_404 :
    delete_telemetry dbEmpty 1 =
      Except.error ⟨404, "Telemetry record 1 not found"⟩ ∧
    (delete_telemetry dbEmpty 1).toOption = none := by decide

/-- Witness for C2: a present id is deleted even though the row belongs to
tenant B and the endpoint checks no tenant at all. -/
theorem delete_telemetry_semantics_witness :
    delete_telemetry db1 1 =
      Except.ok ({ db1 with telemetry := db1.telemetry.filter (fun x => !(x.id == 1)) },
        "Telemetry record 1 deleted successfully") :=
  delete_telemetry_semantics.2.1 db1 1 (mkReading 1 ("B") ("d") 999900 5 none ("active"))
    (by decide) (by decide)

/-- Claim C9, corrected: registering a (tenant, device) pair that already
exists fails with status 400, not 409; any pair not present for that tenant
is appended, so the same device id under a different tenant succeeds. -/
theorem register_conflict_semantics :
    (∀ (db : TelemetryDB) (u : String) (pd : DeviceCreatePayload),
      (∃ d0 ∈ db.user_devices, d0.user_id = u ∧ d0.device_id = pd.device_id) →
      create_user_device db u pd =
        Except.error ⟨400, "Device ID already exists for this user"⟩) ∧
    (∀ (db : TelemetryDB) (u : String) (pd : DeviceCreatePayload),
      (∀ d0 ∈ db.user_devices, ¬(d0.user_id = u ∧ d0.device_id = pd.device_id)) →
      create_user_device db u pd =
        Except.ok
          ({ db with user_devices := db.user_devices ++
              [{ user_id := u
                 device_id := pd.device_id
                 device_name := pd.device_name.getD ("Unknown Device")
                 device_type := pd.device_type.getD ("Smart Device")
                 location := pd.location.getD ("Unknown Location")
                 is_active := true }] },
            "Device created successfully")) := by
  constructor
  · intro db u pd hdup
    obtain ⟨d0, hmem, hu, hd⟩ := hdup
    unfold create_user_device
    rw [if_pos (List.any_eq_true.mpr ⟨d0, hmem, by simp [hu, hd]⟩)]
  · intro db u pd hnone
    unfold create_user_device
    rw [if_neg]
    intro hany
    obtain ⟨d0, hmem, hp⟩ := List.any_eq_true.mp hany
    simp only [Bool.and_eq_true, beq_iff_eq] at hp
    exact hnone d0 hmem hp

/-- Counterexample for C9 as stated: the duplicate registration surfaces as
status 400, which is not the 409 Conflict the claim requires. -/
theorem duplicate_device_returns_400_not_409 :
    create_user_device dbDevA ("A") payD1 =
      Except.error ⟨400, "Device ID already exists for this user"⟩ ∧
    errorStatus (create_user_device dbDevA ("A") payD1) ≠ some 409 := by decide

/-- Witness for C9: tenant B registers the device id D1 already held by
tenant A, and the registration succeeds. -/
theorem register_conflict_semantics_witness :
    create_user_device dbDevA ("B") payD1 =
      Except.ok
        ({ dbDevA with user_devices := dbDevA.user_devices ++
            [{ user_id := "B"
               device_id := "D1"
               device_name := "Unknown Device"
               device_type := "Smart Device"
               location := "Unknown Location"
               is_active := true }] },
          "Device created successfully") :=
  register_conflict_semantics.2 dbDevA ("B") payD1 (by decide)

/-- Anchor evaluation: the health report of db30 at instant 1000000. -/
theorem health30_ok : get_device_health db30 1000000 ("T") ("D") = Except.ok health30 := by
  have hL : latestReading (db30.telemetry.filter (fun r => r.device_id == "D")) =
      some reading30 := by decide
  have hW : (windowRows db30 ("D") (1000000 - 86400)).length = 30 := by decide
  have hE : (db30.telemetry.filter
      (fun r => r.device_id == "D" && !(r.status == "active"))).length = 0 := by decide
  simp only [get_device_health, hL, hW, hE]
  norm_num [health30, reading30, mkReading, build_recommendations, temperatureHigh,
    decide_eq_false, DeviceHealth.mk.injEq]

/-- Claim C3, corrected: the uptime percentage returned by the health
endpoint is recentCount / 24 * 100 with no clamp at 100. -/
theorem uptime_formula_unclamped :
    ∀ (db : TelemetryDB) (now : Int) (u d : String) (h : DeviceHealth),
      get_device_health db now u d = Except.ok h →
      h.uptime_percentage = ((windowRows db d (now - 86400)).length : ℚ) / 24 * 100 := by
  intro db now u d h hok
  simp only [get_device_health] at hok
  cases hL : latestReading (db.telemetry.filter (fun r => r.device_id == d)) with
  | none =>
    rw [hL] at hok
    exact absurd hok (by simp)
  | some latest =>
    rw [hL] at hok
    simp only [Except.ok.injEq] at hok
    rw [← hok]
    norm_num

/-- Counterexample for C3 as stated: thirty readings in the trailing day
produce an uptime percentage of 125, not the clamped 100 the claim
requires. -/
theorem uptime_thirty_readings_gives_125 :
    (get_device_health db30 1000000 ("T") ("D")).toOption.map
      (fun h => h.uptime_percentage) = some 125 ∧ (125 : ℚ) ≠ 100 := by
  rw [health30_ok]
  exact ⟨rfl, by norm_num⟩

/-- Witness for C3 at the concrete thirty-reading store. -/
theorem uptime_formula_unclamped_witness :
    health30.uptime_percentage =
      ((windowRows db30 ("D") (1000000 - 86400)).length : ℚ) / 24 * 100 :=
  uptime_formula_unclamped db30 1000000 ("T") ("D") health30 health30_ok

/-- Anchor evaluation: the aggregates over the three readings of db3. -/
theorem calc3_ok :
    calculate_energy_analytics db3.telemetry =
      some
        { device_id := "D1", period := "custom", total_energy := 6, average_energy := 2,
          peak_energy := 3, cost_estimate := 18 / 25, carbon_footprint := 138 / 25,
          data_points := [] } := by
  simp only [db3, calculate_energy_analytics]
  norm_num [mkReading]

/-- Anchor evaluation: the daily analytics of db3 at instant 1000000. -/
theorem analytics3_ok :
    get_device_analytics db3 1000000 ("T1") ("D1") ("daily") =
      Except.ok
        { device_id := "D1", period := "daily", total_energy := 6, average_energy := 2,
          peak_energy := 3, cost_estimate := 18 / 25, carbon_footprint := 138 / 25,
          data_points := [] } := by
  have hd : periodStart 1000000 ("daily") = some 913600 := by norm_num [periodStart]
  have hrows : windowRows db3 ("D1") 913600 = db3.telemetry := by decide
  simp only [get_device_analytics, hd, hrows, calc3_ok]

/-- Claim C4, corrected: for any window population the endpoint returns the
sum, the sum divided by the count, the maximum, the tariff products 0.12 and
0.92 of the sum, and an always-empty data_points list; the response carries
no sample count, so the concrete scenario yields the stated aggregates with
data_points empty rather than a sampleCount of 3. -/
theorem analytics_aggregates_and_scenario :
    (∀ (rows : List Reading) (a : EnergyAnalytics),
      calculate_energy_analytics rows = some a →
      a.total_energy = (rows.map (fun r => r.energy_usage)).sum ∧
      a.average_energy * (rows.length : ℚ) = a.total_energy ∧
      (∃ r ∈ rows, a.peak_energy = r.energy_usage) ∧
      (∀ r ∈ rows, r.energy_usage ≤ a.peak_energy) ∧
      a.cost_estimate = a.total_energy * (12 / 100) ∧
      a.carbon_footprint = a.total_energy * (92 / 100) ∧
      a.data_points = []) ∧
    get_device_analytics db3 1000000 ("T1") ("D1") ("daily") =
      Except.ok
        { device_id := "D1", period := "daily", total_energy := 6, average_energy := 2,
          peak_energy := 3, cost_estimate := 18 / 25, carbon_footprint := 138 / 25,
          data_points := [] } := by
  refine ⟨?_, analytics3_ok⟩
  intro rows a hsome
  cases rows with
  | nil => simp [calculate_energy_analytics] at hsome
  | cons first rest =>
    simp only [calculate_energy_analytics, Option.some.injEq] at hsome
    rw [← hsome]
    refine ⟨?_, ?_, ?_, ?_, rfl, rfl, rfl⟩
    · simp only [foldl_add_eq_sum, zero_add]
    · have hn : (((first :: rest).map (fun r => r.energy_usage)).length : ℚ) ≠ 0 := by
        simp only [List.length_map, List.length_cons]
        positivity
      simp only [List.length_map] at hn ⊢
      exact div_mul_cancel₀ _ hn
    · rcases foldl_max_mem (rest.map (fun r => r.energy_usage)) first.energy_usage with hc | hc
      · exact ⟨first, List.mem_cons_self first rest, hc⟩
      · obtain ⟨r, hr, hfr⟩ := List.mem_map.mp hc
        exact ⟨r, List.mem_cons_of_mem first hr, hfr.symm⟩
    · intro r hr
      rcases List.mem_cons.mp hr with hr0 | hr0
      · subst hr0
        exact le_foldl_max (rest.map (fun x => x.energy_usage)) r.energy_usage
      · exact mem_le_foldl_max (rest.map (fun x => x.energy_usage)) first.energy_usage
          r.energy_usage (List.mem_map_of_mem (fun x => x.energy_usage) hr0)

/-- Counterexample for C4 as stated: the analytics response for the
[1, 2, 3] scenario carries no sample count; its only collection, the
data_points list, is empty, not of size 3. -/
theorem analytics_response_carries_no_sample_count :
    (get_device_analytics db3 1000000 ("T1") ("D1") ("daily")).toOption.map
      (fun a => a.data_points.length) = some 0 ∧ (0 : Nat) ≠ 3 := by
  rw [analytics3_ok]
  exact ⟨rfl, by decide⟩

/-- Witness for C4: the aggregate characterization applied to the concrete
three-reading window of db3. -/
theorem analytics_aggregates_witness :
    (6 : ℚ) = (db3.telemetry.map (fun r => r.energy_usage)).sum ∧
    (2 : ℚ) * (db3.telemetry.length : ℚ) = 6 ∧
    (∃ r ∈ db3.telemetry, (3 : ℚ) = r.energy_usage) ∧
    (∀ r ∈ db3.telemetry, r.energy_usage ≤ 3) ∧
    (18 / 25 : ℚ) = 6 * (12 / 100) ∧
    (138 / 25 : ℚ) = 6 * (92 / 100) ∧
    ([] : List TelemetryResponse) = [] :=
  analytics_aggregates_and_scenario.1 db3.telemetry
    { device_id := "D1", period := "custom", total_energy := 6, average_energy := 2,
      peak_energy := 3, cost_estimate := 18 / 25, carbon_footprint := 138 / 25,
      data_points := [] } calc3_ok

/-- Anchor evaluation: the aggregates over the five zero-usage readings. -/
theorem calc5_ok :
    calculate_energy_analytics db5.telemetry =
      some
        { device_id := "D", period := "custom", total_energy := 0, average_energy := 0,
          peak_energy := 0, cost_estimate := 0, carbon_footprint := 0,
          data_points := [] } := by
  simp only [db5, calculate_energy_analytics]
  norm_num [mkReading]

/-- Anchor evaluation: the daily analytics of the five zero-usage readings
of db5 at instant 1000000. -/
theorem analytics5_ok :
    get_device_analytics db5 1000000 ("T") ("D") ("daily") =
      Except.ok
        { device_id := "D", period := "daily", total_energy := 0, average_energy := 0,
          peak_energy := 0, cost_estimate := 0, carbon_footprint := 0,
          data_points := [] } := by
  have hd : periodStart 1000000 ("daily") = some 913600 := by norm_num [periodStart]
  have hrows : windowRows db5 ("D") 913600 = db5.telemetry := by decide
  simp only [get_device_analytics, hd, hrows, calc5_ok]

/-- Claim C5, corrected: for any recognized period the analytics endpoint
fails with 404 exactly when the window holds no reading of the device; five
zero-usage readings are five samples, producing a successful response with
average zero, though the response itself carries no sample-count field. -/
theorem analytics_notfound_iff_empty_window :
    (∀ (db : TelemetryDB) (now : Int) (u d p : String) (ws : Int),
      periodStart now p = some ws →
      (errorStatus (get_device_analytics db now u d p) = some 404 ↔
        windowRows db d ws = [])) ∧
    ((get_device_analytics db5 1000000 ("T") ("D") ("daily")).toOption.map
        (fun a => a.average_energy) = some 0 ∧
      (windowRows db5 ("D") (1000000 - 86400)).length = 5) := by
  constructor
  · intro db now u d p ws hws
    cases hrows : windowRows db d ws with
    | nil =>
      simp [get_device_analytics, hws, hrows, calculate_energy_analytics, errorStatus]
    | cons a l =>
      simp [get_device_analytics, hws, hrows, calculate_energy_analytics, errorStatus]
  · refine ⟨?_, by decide⟩
    rw [analytics5_ok]
    rfl

/-- Counterexample for C5 as stated: the successful response for the five
zero-usage readings carries no sample count; its data_points list is empty,
not of size 5. -/
theorem zero_usage_response_carries_no_sample_count :
    (get_device_analytics db5 1000000 ("T") ("D") ("daily")).toOption.map
      (fun a => a.data_points.length) = some 0 ∧ (0 : Nat) ≠ 5 := by
  rw [analytics5_ok]
  exact ⟨rfl, by decide⟩

/-- Witness for C5: the 404-iff-empty-window equivalence at the empty store
and the daily period. -/
theorem analytics_notfound_iff_empty_window_witness :
    errorStatus (get_device_analytics dbEmpty 1000000 ("T") ("D") ("daily")) = some 404 ↔
      windowRows dbEmpty ("D") (1000000 - 86400) = [] :=
  analytics_notfound_iff_empty_window.1 dbEmpty 1000000 ("T") ("D") ("daily")
    (1000000 - 86400) rfl

/-- Anchor evaluation: the health report of db24 at instant 1000000, whose
latest reading has temperature 75. -/
theorem healthD24_ok :
    get_device_health db24 1000000 ("T") ("D") =
      Except.ok
        { device_id := "D", status := "active", last_seen := 999100,
          uptime_percentage := 100, error_count := 0, maintenance_due := false,
          recommendations := [] } := by
  have hL : latestReading (db24.telemetry.filter (fun r => r.device_id == "D")) =
      some (mkReading 24 ("T") ("D") 999100 1 (some 75) ("active")) := by decide
  have hW : (windowRows db24 ("D") (1000000 - 86400)).length = 24 := by decide
  have hE : (db24.telemetry.filter
      (fun r => r.device_id == "D" && !(r.status == "active"))).length = 0 := by decide
  simp only [get_device_health, hL, hW, hE]
  norm_num [mkReading, build_recommendations, temperatureHigh,
    decide_eq_false, DeviceHealth.mk.injEq]

/-- Anchor evaluation: the health report of dbD2 at instant 1000000: no
recent reading, six historic error-status readings. -/
theorem healthD2_ok :
    get_device_health dbD2 1000000 ("T") ("D2") =
      Except.ok
        { device_id := "D2", status := "error", last_seen := 800005,
          uptime_percentage := 0, error_count := 6, maintenance_due := true,
          recommendations := [connectivityAdvisory, maintenanceAdvisory] } := by
  have hL : latestReading (dbD2.telemetry.filter (fun r => r.device_id == "D2")) =
      some (mkReading 6 ("T") ("D2") 800005 1 none ("error")) := by decide
  have hW : (windowRows dbD2 ("D2") (1000000 - 86400)).length = 0 := by decide
  have hE : (dbD2.telemetry.filter
      (fun r => r.device_id == "D2" && !(r.status == "active"))).length = 6 := by decide
  simp only [get_device_health, hL, hW, hE]
  norm_num [mkReading, build_recommendations, temperatureHigh,
    decide_eq_false, DeviceHealth.mk.injEq]

/-- Claim C8, corrected: the three recommendation rules are independent and
additive with thresholds uptime below 90, error count above 0 and a present
nonzero latest temperature above 80 (not 70); no triggered rule yields the
empty list, and the zero-uptime six-error scenario returns uptime 0,
maintenance due, and both the connectivity and maintenance advisories. -/
theorem recommendation_rules_additive :
    (∀ (up : ℚ) (e : Nat) (t : Option ℚ),
      (connectivityAdvisory ∈ build_recommendations up e t ↔ up < 90) ∧
      (maintenanceAdvisory ∈ build_recommendations up e t ↔ 0 < e) ∧
      (ventilationAdvisory ∈ build_recommendations up e t ↔ temperatureHigh t = true) ∧
      (build_recommendations up e t = [] ↔
        (¬ up < 90 ∧ e = 0 ∧ temperatureHigh t = false))) ∧
    (get_device_health dbD2 1000000 ("T") ("D2")).toOption.map
      (fun h => (h.uptime_percentage, h.maintenance_due, h.recommendations)) =
      some (0, true, [connectivityAdvisory, maintenanceAdvisory]) := by
  constructor
  · intro up e t
    have h1 : connectivityAdvisory ≠ maintenanceAdvisory := by decide
    have h2 : connectivityAdvisory ≠ ventilationAdvisory := by decide
    have h3 : maintenanceAdvisory ≠ ventilationAdvisory := by decide
    unfold build_recommendations
    by_cases hA : up < 90 <;> by_cases hB : 0 < e <;>
        by_cases hC : temperatureHigh t = true <;>
      simp only [hA, hB, hC, if_true, if_false, eq_self_iff_true, if_pos, if_neg,
        not_false_iff, List.append_nil, List.nil_append, List.cons_append,
        List.mem_append, List.mem_singleton, List.mem_cons, List.not_mem_nil,
        List.cons_ne_nil, List.append_ne_nil_of_left_ne_nil, ne_eq,
        Bool.not_eq_true, iff_true, iff_false, or_false, false_or] <;>
      refine ⟨?_, ?_, ?_, ?_⟩ <;>
      (try simp [h1, h2, h3, h1.symm, h2.symm, h3.symm, hA, hB, hC,
        Nat.not_lt, Nat.le_zero, Bool.not_eq_true, List.append_eq_nil]) <;>
      (try omega)
  · rw [healthD2_ok]
    rfl

/-- Counterexample for C8 as stated: the latest reading of db24 has
temperature 75, strictly above the threshold 70 the claim fixes, yet the
returned recommendation list is empty: the code compares against 80. -/
theorem temperature_75_no_ventilation_advisory :
    (get_device_health db24 1000000 ("T") ("D")).toOption.map
      (fun h => h.recommendations) = some [] ∧
    (latestReading (db24.telemetry.filter (fun r => r.device_id == "D"))).map
      (fun r => r.temperature) = some (some 75) ∧
    ((70 : ℚ) < 75) := by
  refine ⟨?_, by decide, by norm_num⟩
  rw [healthD24_ok]
  rfl
